import Mathlib

/-
Verification model of the climate-risk monitoring service
(garden weather alerts: plant cache, retry client, alert engine,
SMS channel, metrics, alert history).

Numbers from the source (JS) are modelled as rationals, times as
integer milliseconds, maps as functions or association lists, and
every network interaction as an explicit parameter carrying the
outcome the environment would have produced.
-/

namespace GardenAlerts

/-- Plant record as retrieved from the backend (models/index.ts). -/
structure Plant where
  id : ℕ
  user_id : ℕ
  name : String
  type : String
  planted_at : String
  notes : String
  created_at : String
  deriving DecidableEq, Repr

/-- User record from the backend; phone_number is nullable (models/index.ts). -/
structure User where
  id : ℕ
  name : String
  phone_number : Option String
  deriving DecidableEq, Repr

/-- Garden configuration record (models/index.ts). -/
structure Garden where
  gardenId : String
  userId : ℕ
  name : String
  latitude : ℚ
  longitude : ℚ
  deriving DecidableEq, Repr

/-- Plant sensitivity profile (models/index.ts). -/
structure SensitivityProfile where
  plantType : String
  maxTemperature : ℚ
  minTemperature : ℚ
  maxPrecipitation : ℚ
  maxWindSpeed : ℚ
  deriving DecidableEq, Repr

/-- Weather data parsed from the Open-Meteo response (models/index.ts);
the timestamp is milliseconds since the epoch. -/
structure WeatherData where
  temperature : ℚ
  temperatureMax : ℚ
  temperatureMin : ℚ
  precipitation : ℚ
  windSpeed : ℚ
  timestamp : ℤ
  deriving DecidableEq, Repr

/-- The four alert types (models/index.ts). -/
inductive AlertType where
  | HIGH_TEMPERATURE
  | LOW_TEMPERATURE
  | HEAVY_RAIN
  | STRONG_WIND
  deriving DecidableEq, Repr

/-- Alert record emitted by the AlertEngine (models/index.ts). -/
structure Alert where
  alertId : String
  gardenId : String
  userId : ℕ
  gardenName : String
  timestamp : ℤ
  alertType : AlertType
  metric : String
  currentValue : ℚ
  threshold : ℚ
  affectedPlantTypes : List String
  affectedPlantNames : List String
  deriving DecidableEq, Repr

/-- Cache entry held by PlantsService (WeatherService.ts, CacheEntry). -/
structure CacheEntry where
  plants : List Plant
  timestamp : ℤ
  lastUpdated : ℤ
  deriving DecidableEq, Repr

/-- The PlantsService in-memory Map from userId to cache entry. -/
def CacheMap : Type := ℕ → Option CacheEntry

/-- cacheTTL = 24 hours in milliseconds (PlantsService). -/
def cacheTTL : ℤ := 24 * 60 * 60 * 1000

/-- A PlantsService freshly constructed has an empty cache. -/
def emptyCache : CacheMap := fun _ => none

/-- PlantsService.getCachedPlants: returns the cached plants for a user, or
none when absent or when the entry age exceeds the 24h TTL. -/
def getCachedPlants (cache : CacheMap) (userId : ℕ) (now : ℤ) :
    Option (List Plant) :=
  match cache userId with
  | none => none
  | some entry =>
    let age := now - entry.lastUpdated
    if age > cacheTTL then none
    else some entry.plants

/-- PlantsService.setCachedPlants: replaces the entry for a user, stamping
both timestamp and lastUpdated with the current time. -/
def setCachedPlants (cache : CacheMap) (userId : ℕ) (plants : List Plant)
    (now : ℤ) : CacheMap :=
  fun u =>
    if u = userId then some { plants := plants, timestamp := now, lastUpdated := now }
    else cache u

/-- Outcome of one HTTP attempt, as seen by fetchWithRetry: a 2xx response
with parsed data, a non-2xx response, or a transport error. -/
inductive HttpResult (T : Type) where
  | ok (data : T)
  | httpError (status : ℕ) (statusText : String)
  | transportError (message : String)
  deriving Repr

/-- One iteration body of fetchWithRetry: a non-ok response is thrown as an
HTTP error, a transport failure as its own error, a 2xx returns the data. -/
def attemptOutcome {T : Type} : HttpResult T → Except String T
  | .ok d => .ok d
  | .httpError s st => .error ("HTTP " ++ toString s ++ ": " ++ st)
  | .transportError m => .error m

/-- Whether an attempt would succeed (response.ok and body parsed). -/
def httpOk {T : Type} : HttpResult T → Bool
  | .ok _ => true
  | _ => false

/-- Observable trace of PlantsService.fetchWithRetry: the final result, the
number of HTTP attempts performed, and the list of backoff delays awaited
(in milliseconds, in order). -/
structure RetryTrace (T : Type) where
  result : Except String T
  attempts : ℕ
  delays : List ℕ
  deriving Repr

/-- The loop of PlantsService.fetchWithRetry. The source iterates attempt
from 0 while attempt < maxRetries; here remaining = maxRetries - attempt is
the structural counter, and responses gives the outcome of each attempt.
After a failed attempt, when further attempts remain (attempt < maxRetries-1,
i.e. remaining > 1) the loop sleeps 2^attempt * 1000 ms and retries; the
final error is rethrown after the loop. Fuel 0 corresponds to the loop
never running (lastError null). -/
def fetchRetryLoop {T : Type} (responses : ℕ → HttpResult T) :
    ℕ → ℕ → RetryTrace T
  | attempt, 0 =>
    { result := .error ("Failed to fetch after all retries"),
      attempts := attempt, delays := [] }
  | attempt, remaining + 1 =>
    match attemptOutcome (responses attempt) with
    | .ok d => { result := .ok d, attempts := attempt + 1, delays := [] }
    | .error e =>
      if remaining = 0 then
        { result := .error e, attempts := attempt + 1, delays := [] }
      else
        let rest := fetchRetryLoop responses (attempt + 1) remaining
        { result := rest.result, attempts := rest.attempts,
          delays := (2 ^ attempt * 1000) :: rest.delays }

/-- PlantsService.fetchWithRetry with explicit maxRetries (the source
default is 3 and both call sites use the default). -/
def fetchWithRetry {T : Type} (responses : ℕ → HttpResult T)
    (maxRetries : ℕ) : RetryTrace T :=
  fetchRetryLoop responses 0 maxRetries

/-- PlantsService.fetchUserPlants, after the retry helper has resolved: on
success the cache is refreshed with the fresh plants; on failure the service
falls back to getCachedPlants and, when that read yields nothing, throws.
The network outcome of fetchWithRetry is passed in as fetchResult. -/
def fetchUserPlants (cache : CacheMap) (userId : ℕ) (now : ℤ)
    (fetchResult : Except String (List Plant)) :
    Except String (List Plant) × CacheMap :=
  match fetchResult with
  | .ok plants => (.ok plants, setCachedPlants cache userId plants now)
  | .error _ =>
    match getCachedPlants cache userId now with
    | some cachedPlants => (.ok cachedPlants, cache)
    | none =>
      (.error ("Failed to fetch plants for user " ++ toString userId ++
        " and no cache available"), cache)

/-- Math.min over a nonempty argument list (head and tail), as used for the
most-restrictive threshold in checkThresholds. -/
def listMinQ (x : ℚ) (xs : List ℚ) : ℚ := xs.foldl min x

/-- Math.max over a nonempty argument list (head and tail). -/
def listMaxQ (x : ℚ) (xs : List ℚ) : ℚ := xs.foldl max x

/-- One threshold block of AlertEngine.checkThresholds. The four blocks of
the source are textually identical up to the filtered profile list (hit),
the alert type, the metric name, the current weather value, the profile
field compared, and whether the most restrictive threshold is Math.min
(useMax = false) or Math.max (useMax = true, LOW_TEMPERATURE only). When
hit is empty no alert is pushed; otherwise exactly one alert is pushed with
affectedPlantTypes the plant types of hit and affectedPlantNames the names
of the cached plants whose type occurs among them. -/
def thresholdAlert (garden : Garden) (plants : List Plant)
    (genId : AlertType → String) (now : ℤ) (t : AlertType)
    (metricName : String) (currentValue : ℚ)
    (thresholdOf : SensitivityProfile → ℚ) (useMax : Bool)
    (hit : List SensitivityProfile) : List Alert :=
  match hit with
  | [] => []
  | p :: ps =>
    let affectedPlantTypes := (p :: ps).map (fun q => q.plantType)
    let affectedPlantNames :=
      (plants.filter (fun plant => affectedPlantTypes.contains plant.type)).map
        (fun plant => plant.name)
    let threshold :=
      if useMax then listMaxQ (thresholdOf p) (ps.map thresholdOf)
      else listMinQ (thresholdOf p) (ps.map thresholdOf)
    [{ alertId := genId t, gardenId := garden.gardenId,
       userId := garden.userId, gardenName := garden.name,
       timestamp := now, alertType := t, metric := metricName,
       currentValue := currentValue, threshold := threshold,
       affectedPlantTypes := affectedPlantTypes,
       affectedPlantNames := affectedPlantNames }]

/-- AlertEngine.checkThresholds: reads the cached plants for the garden
owner (the JS fallback to [] only fires on a null read), evaluates the four
rules in source order HIGH_TEMPERATURE, LOW_TEMPERATURE, HEAVY_RAIN,
STRONG_WIND with strict comparisons, and concatenates the resulting alert
lists. generateAlertId and new Date are effectful; they enter as genId and
now. -/
def checkThresholds (cache : CacheMap) (now : ℤ) (genId : AlertType → String)
    (weather : WeatherData) (profiles : List SensitivityProfile)
    (garden : Garden) : List Alert :=
  let plants := (getCachedPlants cache garden.userId now).getD []
  thresholdAlert garden plants genId now AlertType.HIGH_TEMPERATURE
      ("temperature") weather.temperature (fun p => p.maxTemperature) false
      (profiles.filter (fun p => decide (p.maxTemperature < weather.temperature)))
    ++ thresholdAlert garden plants genId now AlertType.LOW_TEMPERATURE
      ("temperature") weather.temperature (fun p => p.minTemperature) true
      (profiles.filter (fun p => decide (weather.temperature < p.minTemperature)))
    ++ thresholdAlert garden plants genId now AlertType.HEAVY_RAIN
      ("precipitation") weather.precipitation (fun p => p.maxPrecipitation) false
      (profiles.filter (fun p => decide (p.maxPrecipitation < weather.precipitation)))
    ++ thresholdAlert garden plants genId now AlertType.STRONG_WIND
      ("windSpeed") weather.windSpeed (fun p => p.maxWindSpeed) false
      (profiles.filter (fun p => decide (p.maxWindSpeed < weather.windSpeed)))

/-- The JS Set built by AlertEngine.getPlantTypesFromCache: first
occurrence of each plant type, in insertion order. -/
def uniquePlantTypes (plants : List Plant) : List String :=
  plants.foldl (fun acc p => if acc.contains p.type then acc else acc ++ [p.type]) []

/-- AlertEngine.getPlantTypesFromCache: empty when the cache read is null
or the plant list is empty, else the unique plant types. -/
def getPlantTypesFromCache (cache : CacheMap) (userId : ℕ) (now : ℤ) :
    List String :=
  match getCachedPlants cache userId now with
  | none => []
  | some plants => if plants.isEmpty then [] else uniquePlantTypes plants

/-- Lookup in the Map of sensitivity profiles keyed by plant type. -/
def profilesGet (m : List (String × SensitivityProfile)) (k : String) :
    Option SensitivityProfile :=
  (m.find? (fun q => q.1 == k)).map (fun q => q.2)

/-- ConfigLoader.getProfileForPlantType: the profile for the plant type,
else the default profile, else a thrown error. -/
def getProfileForPlantType (plantType : String)
    (profiles : List (String × SensitivityProfile)) :
    Except String SensitivityProfile :=
  match profilesGet profiles plantType with
  | some profile => .ok profile
  | none =>
    match profilesGet profiles ("default") with
    | some d => .ok d
    | none => .error ("Default profile not found in loaded profiles")

/-- AlertEngine.evaluateGarden. The weather fetch is effectful and enters
as weather (null on any Open-Meteo failure). A null weather or an empty
plant-type set returns []; a missing default profile throws inside the try
block, which the catch turns into []. -/
def evaluateGarden (garden : Garden) (weather : Option WeatherData)
    (cache : CacheMap) (now : ℤ)
    (sensitivityProfiles : List (String × SensitivityProfile))
    (genId : AlertType → String) : List Alert :=
  match weather with
  | none => []
  | some w =>
    let plantTypes := getPlantTypesFromCache cache garden.userId now
    if plantTypes.isEmpty then []
    else
      match plantTypes.mapM (fun t => getProfileForPlantType t sensitivityProfiles) with
      | .error _ => []
      | .ok profiles => checkThresholds cache now genId w profiles garden

/-- JS truthiness of the nullable phone_number string: null and the empty
string are falsy. -/
def jsTruthyString : Option String → Bool
  | none => false
  | some s => !s.isEmpty

/-- Observable trace of NotificationService.sendAlert: result, number of
gateway submit attempts made, and the delays awaited between attempts. -/
structure SendTrace where
  result : Bool
  attemptsMade : ℕ
  delays : List ℕ
  deriving DecidableEq, Repr

/-- The while loop of NotificationService.sendAlert. The source loops while
attempt <= maxRetries, incrementing attempt at the top; here attempt is the
0-based index of the next submit and remaining = maxRetries + 1 - attempt
is the structural counter. submitOk gives the outcome of each Twilio
messages.create call. After a failure, when attempt + 1 <= maxRetries
(remaining > 1) the loop sleeps 5000 ms and retries. -/
def sendLoop (submitOk : ℕ → Bool) : ℕ → ℕ → SendTrace
  | attempt, 0 => { result := false, attemptsMade := attempt, delays := [] }
  | attempt, remaining + 1 =>
    if submitOk attempt then
      { result := true, attemptsMade := attempt + 1, delays := [] }
    else if remaining = 0 then
      { result := false, attemptsMade := attempt + 1, delays := [] }
    else
      let rest := sendLoop submitOk (attempt + 1) remaining
      { result := rest.result, attemptsMade := rest.attemptsMade,
        delays := 5000 :: rest.delays }

/-- NotificationService.sendAlert. enabled models the conjunction of
this.enabled, a non-null twilioClient and a non-null config, which the
constructor sets together; with maxRetries = 2 the loop makes at most
three submit attempts. -/
def sendAlert (enabled : Bool) (user : User) (submitOk : ℕ → Bool) :
    SendTrace :=
  if !enabled then { result := false, attemptsMade := 0, delays := [] }
  else if !(jsTruthyString user.phone_number) then
    { result := false, attemptsMade := 0, delays := [] }
  else sendLoop submitOk 0 3

/-- Alert counters of MetricsService (AlertMetrics). -/
structure AlertMetrics where
  HIGH_TEMPERATURE : ℕ
  LOW_TEMPERATURE : ℕ
  HEAVY_RAIN : ℕ
  STRONG_WIND : ℕ
  deriving DecidableEq, Repr

/-- Mutable state of MetricsService. -/
structure MetricsState where
  alertCounts : AlertMetrics
  smsSent : ℕ
  smsFailed : ℕ
  openMeteoLatencies : List ℚ
  backendLatencies : List ℚ
  startTime : ℤ
  deriving DecidableEq, Repr

/-- MetricsService constructor state. -/
def initialMetrics (start : ℤ) : MetricsState :=
  { alertCounts := { HIGH_TEMPERATURE := 0, LOW_TEMPERATURE := 0,
                     HEAVY_RAIN := 0, STRONG_WIND := 0 },
    smsSent := 0, smsFailed := 0,
    openMeteoLatencies := [], backendLatencies := [], startTime := start }

/-- MetricsService.recordAlert: increments the matching counter, ignores
unknown type strings. -/
def recordAlert (s : MetricsState) (alertType : String) : MetricsState :=
  if alertType == ("HIGH_TEMPERATURE") then
    { s with alertCounts :=
        { s.alertCounts with HIGH_TEMPERATURE := s.alertCounts.HIGH_TEMPERATURE + 1 } }
  else if alertType == ("LOW_TEMPERATURE") then
    { s with alertCounts :=
        { s.alertCounts with LOW_TEMPERATURE := s.alertCounts.LOW_TEMPERATURE + 1 } }
  else if alertType == ("HEAVY_RAIN") then
    { s with alertCounts :=
        { s.alertCounts with HEAVY_RAIN := s.alertCounts.HEAVY_RAIN + 1 } }
  else if alertType == ("STRONG_WIND") then
    { s with alertCounts :=
        { s.alertCounts with STRONG_WIND := s.alertCounts.STRONG_WIND + 1 } }
  else s

/-- MetricsService.recordSMSSuccess. -/
def recordSMSSuccess (s : MetricsState) : MetricsState :=
  { s with smsSent := s.smsSent + 1 }

/-- MetricsService.recordSMSFailure. -/
def recordSMSFailure (s : MetricsState) : MetricsState :=
  { s with smsFailed := s.smsFailed + 1 }

/-- MetricsService.recordOpenMeteoLatency: push, then shift the oldest
sample off when the window exceeds 100. -/
def recordOpenMeteoLatency (s : MetricsState) (latencyMs : ℚ) : MetricsState :=
  let l := s.openMeteoLatencies ++ [latencyMs]
  { s with openMeteoLatencies := if 100 < l.length then l.tail else l }

/-- MetricsService.recordBackendLatency: push, then shift the oldest sample
off when the window exceeds 100. -/
def recordBackendLatency (s : MetricsState) (latencyMs : ℚ) : MetricsState :=
  let l := s.backendLatencies ++ [latencyMs]
  { s with backendLatencies := if 100 < l.length then l.tail else l }

/-- JS Math.round: round half away from zero is round half up for the
non-negative values involved here. -/
def jsRound (q : ℚ) : ℤ := ⌊q + 1 / 2⌋

/-- Latency statistics block of SystemMetrics. -/
structure LatencyStats where
  count : ℕ
  totalLatency : ℚ
  averageLatency : ℚ
  minLatency : ℚ
  maxLatency : ℚ
  deriving DecidableEq, Repr

/-- SMS block of SystemMetrics. -/
structure SMSMetrics where
  sent : ℕ
  failed : ℕ
  successRate : ℚ
  deriving DecidableEq, Repr

/-- API latency block of SystemMetrics. -/
structure APILatencyMetrics where
  openmeteo : LatencyStats
  backend : LatencyStats
  deriving DecidableEq, Repr

/-- Snapshot returned by MetricsService.getMetrics. -/
structure SystemMetrics where
  alerts : AlertMetrics
  sms : SMSMetrics
  apiLatency : APILatencyMetrics
  uptime : ℤ
  lastReset : ℤ
  deriving DecidableEq, Repr

/-- MetricsService.calculateLatencyStats. -/
def calculateLatencyStats (latencies : List ℚ) : LatencyStats :=
  match latencies with
  | [] => { count := 0, totalLatency := 0, averageLatency := 0,
            minLatency := 0, maxLatency := 0 }
  | x :: xs =>
    let total := (x :: xs).foldl (fun sum lat => sum + lat) 0
    let avg := total / ((x :: xs).length : ℚ)
    { count := (x :: xs).length,
      totalLatency := (jsRound total : ℚ),
      averageLatency := (jsRound (avg * 10) : ℚ) / 10,
      minLatency := (jsRound (listMinQ x xs) : ℚ),
      maxLatency := (jsRound (listMaxQ x xs) : ℚ) }

/-- MetricsService.getMetrics at wall time nowMs. -/
def getMetrics (s : MetricsState) (nowMs : ℤ) : SystemMetrics :=
  let totalSMS := s.smsSent + s.smsFailed
  let successRate : ℚ :=
    if 0 < totalSMS then (s.smsSent : ℚ) / (totalSMS : ℚ) else 0
  { alerts := s.alertCounts,
    sms := { sent := s.smsSent, failed := s.smsFailed,
             successRate := (jsRound (successRate * 100) : ℚ) / 100 },
    apiLatency := { openmeteo := calculateLatencyStats s.openMeteoLatencies,
                    backend := calculateLatencyStats s.backendLatencies },
    uptime := (nowMs - s.startTime) / 1000,
    lastReset := s.startTime }

/-- One recording call against MetricsService. -/
inductive MetricsEvent where
  | alertRecorded (alertType : String)
  | smsSuccess
  | smsFailure
  | openMeteoLatency (latencyMs : ℚ)
  | backendLatency (latencyMs : ℚ)
  deriving Repr

/-- Apply one recording call. -/
def applyMetricsEvent (s : MetricsState) : MetricsEvent → MetricsState
  | .alertRecorded t => recordAlert s t
  | .smsSuccess => recordSMSSuccess s
  | .smsFailure => recordSMSFailure s
  | .openMeteoLatency q => recordOpenMeteoLatency s q
  | .backendLatency q => recordBackendLatency s q

/-- State reached from a fresh MetricsService by a sequence of recording
calls. -/
def runMetrics (start : ℤ) (events : List MetricsEvent) : MetricsState :=
  events.foldl applyMetricsEvent (initialMetrics start)

/-- The Open-Meteo latency samples recorded by a sequence of calls. -/
def omSamples : List MetricsEvent → List ℚ
  | [] => []
  | .openMeteoLatency q :: es => q :: omSamples es
  | _ :: es => omSamples es

/-- The backend latency samples recorded by a sequence of calls. -/
def beSamples : List MetricsEvent → List ℚ
  | [] => []
  | .backendLatency q :: es => q :: beSamples es
  | _ :: es => beSamples es

/-- Filters accepted by AlertHistoryService.getAlertHistory; absent fields
are undefined in the source. -/
structure AlertHistoryFilters where
  gardenId : Option String
  userId : Option ℕ
  alertType : Option String
  startDate : Option ℤ
  endDate : Option ℤ
  deriving DecidableEq, Repr

/-- Document stored in the weather_alerts collection: the alert plus a
server-assigned createdAt. -/
structure AlertDocument extends Alert where
  createdAt : ℤ
  deriving DecidableEq, Repr

/-- The MongoDB query object built by getAlertHistory: one optional
equality condition per indexed field plus an optional timestamp range. -/
structure MongoQuery where
  gardenId : Option String
  userId : Option ℕ
  alertType : Option String
  timestampGte : Option ℤ
  timestampLte : Option ℤ
  deriving DecidableEq, Repr

/-- Query construction of AlertHistoryService.getAlertHistory. Each guard
is a JS truthiness test: the empty string and the number 0 are falsy, so
such filter values add no condition; Date objects are always truthy, so
startDate and endDate are applied whenever present. -/
def buildHistoryQuery (filters : AlertHistoryFilters) : MongoQuery :=
  { gardenId :=
      match filters.gardenId with
      | some g => if g.isEmpty then none else some g
      | none => none,
    userId :=
      match filters.userId with
      | some u => if u = 0 then none else some u
      | none => none,
    alertType :=
      match filters.alertType with
      | some a => if a.isEmpty then none else some a
      | none => none,
    timestampGte := filters.startDate,
    timestampLte := filters.endDate }

/-- String stored in the alertType field of a persisted alert document. -/
def alertTypeString : AlertType → String
  | .HIGH_TEMPERATURE => "HIGH_TEMPERATURE"
  | .LOW_TEMPERATURE => "LOW_TEMPERATURE"
  | .HEAVY_RAIN => "HEAVY_RAIN"
  | .STRONG_WIND => "STRONG_WIND"

/-- Whether a stored document satisfies every condition of the query. -/
def matchesQuery (q : MongoQuery) (d : AlertDocument) : Bool :=
  (match q.gardenId with | none => true | some g => d.gardenId == g) &&
  (match q.userId with | none => true | some u => d.userId == u) &&
  (match q.alertType with
   | none => true
   | some a => alertTypeString d.alertType == a) &&
  (match q.timestampGte with | none => true | some t => t ≤ d.timestamp) &&
  (match q.timestampLte with | none => true | some t => d.timestamp ≤ t)

/-- Insertion of a document into a list already sorted by descending
timestamp. -/
def insertByTimestampDesc (d : AlertDocument) :
    List AlertDocument → List AlertDocument
  | [] => [d]
  | x :: xs =>
    if x.timestamp ≥ d.timestamp then x :: insertByTimestampDesc d xs
    else d :: x :: xs

/-- The cursor sort {timestamp: -1} applied by getAlertHistory. -/
def sortByTimestampDesc (docs : List AlertDocument) : List AlertDocument :=
  docs.foldr insertByTimestampDesc []

/-- AlertHistoryService.getAlertHistory over the stored collection:
returns [] when MongoDB is not connected; otherwise filters by the built
query, orders by timestamp descending and caps at limit (source default
100, passed explicitly here). -/
def getAlertHistory (connected : Bool) (docs : List AlertDocument)
    (filters : AlertHistoryFilters) (limit : ℕ) : List AlertDocument :=
  if !connected then []
  else
    let q := buildHistoryQuery filters
    (sortByTimestampDesc (docs.filter (matchesQuery q))).take limit

/-! Concrete demonstration inputs shared by the witnesses. -/

/-- A concrete tomato plant owned by user 1. -/
def plantT1 : Plant :=
  { id := 1, user_id := 1, name := "T1", type := "tomato",
    planted_at := "2024-01-01", notes := "", created_at := "2024-01-01" }

/-- A concrete garden owned by user 1. -/
def gardenG1 : Garden :=
  { gardenId := "g1", userId := 1, name := "G1", latitude := 40, longitude := -3 }

/-- A concrete weather snapshot with temperature 36. -/
def weatherW1 : WeatherData :=
  { temperature := 36, temperatureMax := 38, temperatureMin := 20,
    precipitation := 0, windSpeed := 0, timestamp := 0 }

/-- A fixed alert id generator standing in for generateAlertId. -/
def genIdDemo : AlertType → String := fun _ => "alert-demo"

/-- A concrete user with a phone number. -/
def userU1 : User := { id := 1, name := "Ana", phone_number := some ("+56911111111") }

/-- C7: after setCachedPlants(u, p) at time t0, getCachedPlants(u) returns
p at every read time t with t - t0 at most the 24h TTL, and returns null
once t - t0 exceeds the TTL. -/
theorem c7_cache_ttl (cache : CacheMap) (u : ℕ) (p : List Plant) (t0 t : ℤ) :
    (t - t0 ≤ cacheTTL → getCachedPlants (setCachedPlants cache u p t0) u t = some p) ∧
    (cacheTTL < t - t0 → getCachedPlants (setCachedPlants cache u p t0) u t = none) := by
  have hread : (setCachedPlants cache u p t0) u =
      some { plants := p, timestamp := t0, lastUpdated := t0 } := by
    simp [setCachedPlants]
  constructor <;> intro h <;> simp only [getCachedPlants, hread]
  · rw [if_neg (by omega)]
  · rw [if_pos (by omega)]

/-- Witness for C7: a concrete set followed by a read inside the TTL and a
read past the TTL. -/
theorem c7_cache_ttl_witness :
    getCachedPlants (setCachedPlants emptyCache 1 [plantT1] 0) 1 5 = some [plantT1] ∧
    getCachedPlants (setCachedPlants emptyCache 1 [plantT1] 0) 1 (cacheTTL + 1) = none :=
  ⟨(c7_cache_ttl emptyCache 1 [plantT1] 0 5).1 (by decide),
   (c7_cache_ttl emptyCache 1 [plantT1] 0 (cacheTTL + 1)).2 (by decide)⟩

/-- C1 counterexample: prime the cache for user 1 at time 0, read at
TTL + 1 ms with the network fetch failing after all retries. The fresh
read getCachedPlants indeed returns null, but fetchUserPlants then throws
instead of returning the prior (stale) cached plants, contradicting the
claim that the prior entry is returned even when older than the TTL. -/
theorem c1_stale_counterexample :
    getCachedPlants (setCachedPlants emptyCache 1 [plantT1] 0) 1 (cacheTTL + 1) = none ∧
    (fetchUserPlants (setCachedPlants emptyCache 1 [plantT1] 0) 1 (cacheTTL + 1)
        (.error ("network down"))).1 =
      .error ("Failed to fetch plants for user 1 and no cache available") := by
  exact ⟨by decide, rfl⟩

/-- C1 (amended): when the network fetch fails after all retries, the prior
cached plants are returned only when the entry is within the 24h TTL (the
fallback reads through getCachedPlants); when the prior entry is stale the
fresh read returns null and fetchUserPlants raises instead. -/
theorem c1_fallback_within_ttl (cache : CacheMap) (u : ℕ) (now : ℤ) (e : String) :
    (∀ p, getCachedPlants cache u now = some p →
      (fetchUserPlants cache u now (.error e)).1 = .ok p) ∧
    (getCachedPlants cache u now = none →
      (fetchUserPlants cache u now (.error e)).1 =
        .error ("Failed to fetch plants for user " ++ toString u ++
          " and no cache available")) := by
  constructor
  · intro p hp
    simp [fetchUserPlants, hp]
  · intro hp
    simp [fetchUserPlants, hp]

/-- Witness for the amended C1: a fresh entry is served on fetch failure. -/
theorem c1_fallback_within_ttl_witness :
    (fetchUserPlants (setCachedPlants emptyCache 1 [plantT1] 0) 1 5
        (.error ("network down"))).1 = .ok [plantT1] :=
  (c1_fallback_within_ttl (setCachedPlants emptyCache 1 [plantT1] 0) 1 5
    ("network down")).1 [plantT1] (by decide)

/-- C4: evaluateGarden returns [] whenever the plant cache read for the
garden owner returns null or an empty plant list, for every weather
input. -/
theorem c4_no_plants (garden : Garden) (weather : Option WeatherData)
    (cache : CacheMap) (now : ℤ)
    (reg : List (String × SensitivityProfile)) (genId : AlertType → String)
    (h : getCachedPlants cache garden.userId now = none ∨
         getCachedPlants cache garden.userId now = some []) :
    evaluateGarden garden weather cache now reg genId = [] := by
  cases weather with
  | none => rfl
  | some w =>
    have hpt : getPlantTypesFromCache cache garden.userId now = [] := by
      rcases h with h | h <;> simp [getPlantTypesFromCache, h]
    simp [evaluateGarden, hpt]

/-- Witness for C4: empty cache, concrete garden and hot weather. -/
theorem c4_no_plants_witness :
    evaluateGarden gardenG1 (some weatherW1) emptyCache 0 [] genIdDemo = [] :=
  c4_no_plants gardenG1 (some weatherW1) emptyCache 0 [] genIdDemo (Or.inl (by decide))

/-- C10: falsy filter values build no query condition: a userId filter of
0, or an empty-string gardenId or alertType, yields the same history as
leaving the filter absent, and a query with all three falsy equals the
unfiltered query. -/
theorem c10_falsy_filters (connected : Bool) (docs : List AlertDocument)
    (limit : ℕ) (f : AlertHistoryFilters) :
    getAlertHistory connected docs { f with userId := some 0 } limit =
      getAlertHistory connected docs { f with userId := none } limit ∧
    getAlertHistory connected docs { f with gardenId := some ("") } limit =
      getAlertHistory connected docs { f with gardenId := none } limit ∧
    getAlertHistory connected docs { f with alertType := some ("") } limit =
      getAlertHistory connected docs { f with alertType := none } limit ∧
    getAlertHistory connected docs
        { gardenId := some (""), userId := some 0, alertType := some (""),
          startDate := none, endDate := none } limit =
      getAlertHistory connected docs
        { gardenId := none, userId := none, alertType := none,
          startDate := none, endDate := none } limit :=
  ⟨rfl, rfl, rfl, rfl⟩

/-! Helper lemmas about the nonempty Math.min / Math.max folds. -/

lemma listMinQ_cons (x y : ℚ) (ys : List ℚ) :
    listMinQ x (y :: ys) = listMinQ (min x y) ys := rfl

lemma listMaxQ_cons (x y : ℚ) (ys : List ℚ) :
    listMaxQ x (y :: ys) = listMaxQ (max x y) ys := rfl

lemma listMinQ_mem (xs : List ℚ) : ∀ x, listMinQ x xs ∈ x :: xs := by
  induction xs with
  | nil => intro x; simp [listMinQ]
  | cons y ys ih =>
    intro x
    rw [listMinQ_cons]
    have h := ih (min x y)
    rcases List.mem_cons.mp h with h1 | h1
    · rcases min_choice x y with hm | hm
      · exact List.mem_cons.mpr (Or.inl (h1.trans hm))
      · exact List.mem_cons.mpr (Or.inr (List.mem_cons.mpr (Or.inl (h1.trans hm))))
    · exact List.mem_cons.mpr (Or.inr (List.mem_cons.mpr (Or.inr h1)))

lemma listMinQ_le (xs : List ℚ) : ∀ x, ∀ y ∈ x :: xs, listMinQ x xs ≤ y := by
  induction xs with
  | nil =>
    intro x y hy
    simp at hy
    simp [listMinQ, hy]
  | cons z zs ih =>
    intro x y hy
    rw [listMinQ_cons]
    have hhead : listMinQ (min x z) zs ≤ min x z :=
      ih (min x z) (min x z) (List.mem_cons_self _ _)
    rcases List.mem_cons.mp hy with rfl | hy2
    · exact le_trans hhead (min_le_left _ _)
    · rcases List.mem_cons.mp hy2 with rfl | hy3
      · exact le_trans hhead (min_le_right _ _)
      · exact ih (min x z) y (List.mem_cons_of_mem _ hy3)

lemma listMaxQ_mem (xs : List ℚ) : ∀ x, listMaxQ x xs ∈ x :: xs := by
  induction xs with
  | nil => intro x; simp [listMaxQ]
  | cons y ys ih =>
    intro x
    rw [listMaxQ_cons]
    have h := ih (max x y)
    rcases List.mem_cons.mp h with h1 | h1
    · rcases max_choice x y with hm | hm
      · exact List.mem_cons.mpr (Or.inl (h1.trans hm))
      · exact List.mem_cons.mpr (Or.inr (List.mem_cons.mpr (Or.inl (h1.trans hm))))
    · exact List.mem_cons.mpr (Or.inr (List.mem_cons.mpr (Or.inr h1)))

lemma listMaxQ_ge (xs : List ℚ) : ∀ x, ∀ y ∈ x :: xs, y ≤ listMaxQ x xs := by
  induction xs with
  | nil =>
    intro x y hy
    simp at hy
    simp [listMaxQ, hy]
  | cons z zs ih =>
    intro x y hy
    rw [listMaxQ_cons]
    have hhead : max x z ≤ listMaxQ (max x z) zs :=
      ih (max x z) (max x z) (List.mem_cons_self _ _)
    rcases List.mem_cons.mp hy with rfl | hy2
    · exact le_trans (le_max_left _ _) hhead
    · rcases List.mem_cons.mp hy2 with rfl | hy3
      · exact le_trans (le_max_right _ _) hhead
      · exact ih (max x z) y (List.mem_cons_of_mem _ hy3)

/-! Helper lemmas about one threshold block. -/

lemma thresholdAlert_map_alertType (garden : Garden) (plants : List Plant)
    (genId : AlertType → String) (now : ℤ) (t : AlertType)
    (metricName : String) (currentValue : ℚ)
    (thresholdOf : SensitivityProfile → ℚ) (useMax : Bool)
    (hit : List SensitivityProfile) :
    (thresholdAlert garden plants genId now t metricName currentValue
        thresholdOf useMax hit).map Alert.alertType =
      if hit.isEmpty then [] else [t] := by
  cases hit <;> simp [thresholdAlert]

lemma thresholdAlert_mem_eq (garden : Garden) (plants : List Plant)
    (genId : AlertType → String) (now : ℤ) (t : AlertType)
    (metricName : String) (currentValue : ℚ)
    (thresholdOf : SensitivityProfile → ℚ) (useMax : Bool)
    (hit : List SensitivityProfile) (a : Alert)
    (ha : a ∈ thresholdAlert garden plants genId now t metricName
      currentValue thresholdOf useMax hit) :
    a.alertType = t ∧
    a.affectedPlantTypes = hit.map (fun p => p.plantType) ∧
    a.threshold ∈ hit.map thresholdOf ∧
    ((useMax = false → ∀ p ∈ hit, a.threshold ≤ thresholdOf p) ∧
     (useMax = true → ∀ p ∈ hit, thresholdOf p ≤ a.threshold)) := by
  cases hit with
  | nil => simp [thresholdAlert] at ha
  | cons p ps =>
    simp only [thresholdAlert, List.mem_singleton] at ha
    subst ha
    cases useMax with
    | false =>
      refine ⟨rfl, rfl, ?_, ?_, ?_⟩
      · simpa using listMinQ_mem (ps.map thresholdOf) (thresholdOf p)
      · intro _ q hq
        have := listMinQ_le (ps.map thresholdOf) (thresholdOf p) (thresholdOf q)
        simp only [← List.map_cons] at this
        exact by simpa using this (List.mem_map_of_mem thresholdOf hq)
      · intro hfalse
        cases hfalse
    | true =>
      refine ⟨rfl, rfl, ?_, ?_, ?_⟩
      · simpa using listMaxQ_mem (ps.map thresholdOf) (thresholdOf p)
      · intro hfalse
        cases hfalse
      · intro _ q hq
        have := listMaxQ_ge (ps.map thresholdOf) (thresholdOf p) (thresholdOf q)
        simp only [← List.map_cons] at this
        exact by simpa using this (List.mem_map_of_mem thresholdOf hq)

lemma checkThresholds_types_eq (cache : CacheMap) (now : ℤ)
    (genId : AlertType → String) (w : WeatherData)
    (profiles : List SensitivityProfile) (garden : Garden) :
    (checkThresholds cache now genId w profiles garden).map Alert.alertType =
      (if (profiles.filter (fun p => decide (p.maxTemperature < w.temperature))).isEmpty
        then [] else [AlertType.HIGH_TEMPERATURE]) ++
      (if (profiles.filter (fun p => decide (w.temperature < p.minTemperature))).isEmpty
        then [] else [AlertType.LOW_TEMPERATURE]) ++
      (if (profiles.filter (fun p => decide (p.maxPrecipitation < w.precipitation))).isEmpty
        then [] else [AlertType.HEAVY_RAIN]) ++
      (if (profiles.filter (fun p => decide (p.maxWindSpeed < w.windSpeed))).isEmpty
        then [] else [AlertType.STRONG_WIND]) := by
  simp only [checkThresholds, List.map_append, thresholdAlert_map_alertType]

lemma mem_ite_nil_singleton (a t : AlertType) (c : Prop) [Decidable c] :
    (a ∈ if c then ([] : List AlertType) else [t]) ↔ ¬c ∧ a = t := by
  split <;> simp_all

lemma filter_not_isEmpty_iff (profiles : List SensitivityProfile)
    (f : SensitivityProfile → Prop) [DecidablePred f] :
    ¬(profiles.filter (fun p => decide (f p))).isEmpty = true ↔ ∃ p ∈ profiles, f p := by
  rw [List.isEmpty_iff, List.filter_eq_nil_iff]
  push_neg
  simp

/-- C2: checkThresholds emits an alert of a given type exactly when the
corresponding weather metric strictly exceeds (strictly falls below, for
LOW_TEMPERATURE) the matching threshold of some evaluated profile; a
metric exactly at the threshold produces no alert. -/
theorem c2_strict_thresholds (cache : CacheMap) (now : ℤ)
    (genId : AlertType → String) (w : WeatherData)
    (profiles : List SensitivityProfile) (garden : Garden) :
    (AlertType.HIGH_TEMPERATURE ∈
        (checkThresholds cache now genId w profiles garden).map Alert.alertType ↔
      ∃ p ∈ profiles, p.maxTemperature < w.temperature) ∧
    (AlertType.LOW_TEMPERATURE ∈
        (checkThresholds cache now genId w profiles garden).map Alert.alertType ↔
      ∃ p ∈ profiles, w.temperature < p.minTemperature) ∧
    (AlertType.HEAVY_RAIN ∈
        (checkThresholds cache now genId w profiles garden).map Alert.alertType ↔
      ∃ p ∈ profiles, p.maxPrecipitation < w.precipitation) ∧
    (AlertType.STRONG_WIND ∈
        (checkThresholds cache now genId w profiles garden).map Alert.alertType ↔
      ∃ p ∈ profiles, p.maxWindSpeed < w.windSpeed) := by
  rw [checkThresholds_types_eq]
  refine ⟨?_, ?_, ?_, ?_⟩ <;>
    rw [List.mem_append, List.mem_append, List.mem_append] <;>
    simp only [mem_ite_nil_singleton] <;>
    simp [filter_not_isEmpty_iff]

/-- C9: within one evaluation the emitted alert types form a sublist of
the fixed sequence HIGH_TEMPERATURE, LOW_TEMPERATURE, HEAVY_RAIN,
STRONG_WIND, hence appear in that order with each type at most once. -/
theorem c9_alert_order (cache : CacheMap) (now : ℤ)
    (genId : AlertType → String) (w : WeatherData)
    (profiles : List SensitivityProfile) (garden : Garden) :
    List.Sublist ((checkThresholds cache now genId w profiles garden).map Alert.alertType)
      [AlertType.HIGH_TEMPERATURE, AlertType.LOW_TEMPERATURE,
       AlertType.HEAVY_RAIN, AlertType.STRONG_WIND] := by
  rw [checkThresholds_types_eq, List.append_assoc, List.append_assoc]
  show List.Sublist _
    ([AlertType.HIGH_TEMPERATURE] ++ ([AlertType.LOW_TEMPERATURE] ++
      ([AlertType.HEAVY_RAIN] ++ [AlertType.STRONG_WIND])))
  refine List.Sublist.append ?_ (List.Sublist.append ?_ (List.Sublist.append ?_ ?_)) <;>
    split <;> simp

/-- A value is the minimum of a list of rationals. -/
def isMinOf (x : ℚ) (l : List ℚ) : Prop := x ∈ l ∧ ∀ y ∈ l, x ≤ y

/-- A value is the maximum of a list of rationals. -/
def isMaxOf (x : ℚ) (l : List ℚ) : Prop := x ∈ l ∧ ∀ y ∈ l, y ≤ x

/-- C3: in every emitted alert the threshold field is the most restrictive
one: the minimum of the affected profiles maxTemperature, maxPrecipitation
or maxWindSpeed for HIGH_TEMPERATURE, HEAVY_RAIN and STRONG_WIND, and the
maximum of the affected profiles minTemperature for LOW_TEMPERATURE; the
affected profiles are exactly those whose threshold the metric breaches. -/
theorem c3_most_restrictive (cache : CacheMap) (now : ℤ)
    (genId : AlertType → String) (w : WeatherData)
    (profiles : List SensitivityProfile) (garden : Garden) :
    ∀ a ∈ checkThresholds cache now genId w profiles garden,
      (a.alertType = AlertType.HIGH_TEMPERATURE →
        a.affectedPlantTypes =
          ((profiles.filter (fun p => decide (p.maxTemperature < w.temperature))).map
            (fun p => p.plantType)) ∧
        isMinOf a.threshold
          ((profiles.filter (fun p => decide (p.maxTemperature < w.temperature))).map
            (fun p => p.maxTemperature))) ∧
      (a.alertType = AlertType.LOW_TEMPERATURE →
        a.affectedPlantTypes =
          ((profiles.filter (fun p => decide (w.temperature < p.minTemperature))).map
            (fun p => p.plantType)) ∧
        isMaxOf a.threshold
          ((profiles.filter (fun p => decide (w.temperature < p.minTemperature))).map
            (fun p => p.minTemperature))) ∧
      (a.alertType = AlertType.HEAVY_RAIN →
        a.affectedPlantTypes =
          ((profiles.filter (fun p => decide (p.maxPrecipitation < w.precipitation))).map
            (fun p => p.plantType)) ∧
        isMinOf a.threshold
          ((profiles.filter (fun p => decide (p.maxPrecipitation < w.precipitation))).map
            (fun p => p.maxPrecipitation))) ∧
      (a.alertType = AlertType.STRONG_WIND →
        a.affectedPlantTypes =
          ((profiles.filter (fun p => decide (p.maxWindSpeed < w.windSpeed))).map
            (fun p => p.plantType)) ∧
        isMinOf a.threshold
          ((profiles.filter (fun p => decide (p.maxWindSpeed < w.windSpeed))).map
            (fun p => p.maxWindSpeed))) := by
  intro a ha
  rw [checkThresholds] at ha
  rcases List.mem_append.mp ha with hABC | hblk
  · rcases List.mem_append.mp hABC with hAB | hblk
    · rcases List.mem_append.mp hAB with hblk | hblk
      · obtain ⟨htype, htypes, hmem, hmin, hmax⟩ :=
          thresholdAlert_mem_eq _ _ _ _ _ _ _ _ _ _ a hblk
        refine ⟨?_, ?_, ?_, ?_⟩ <;> intro h <;> rw [htype] at h <;> try cases h
        refine ⟨htypes, hmem, ?_⟩
        intro y hy
        obtain ⟨p, hp, rfl⟩ := List.mem_map.mp hy
        exact hmin rfl p hp
      · obtain ⟨htype, htypes, hmem, hmin, hmax⟩ :=
          thresholdAlert_mem_eq _ _ _ _ _ _ _ _ _ _ a hblk
        refine ⟨?_, ?_, ?_, ?_⟩ <;> intro h <;> rw [htype] at h <;> try cases h
        refine ⟨htypes, hmem, ?_⟩
        intro y hy
        obtain ⟨p, hp, rfl⟩ := List.mem_map.mp hy
        exact hmax rfl p hp
    · obtain ⟨htype, htypes, hmem, hmin, hmax⟩ :=
        thresholdAlert_mem_eq _ _ _ _ _ _ _ _ _ _ a hblk
      refine ⟨?_, ?_, ?_, ?_⟩ <;> intro h <;> rw [htype] at h <;> try cases h
      refine ⟨htypes, hmem, ?_⟩
      intro y hy
      obtain ⟨p, hp, rfl⟩ := List.mem_map.mp hy
      exact hmin rfl p hp
  · obtain ⟨htype, htypes, hmem, hmin, hmax⟩ :=
      thresholdAlert_mem_eq _ _ _ _ _ _ _ _ _ _ a hblk
    refine ⟨?_, ?_, ?_, ?_⟩ <;> intro h <;> rw [htype] at h <;> try cases h
    refine ⟨htypes, hmem, ?_⟩
    intro y hy
    obtain ⟨p, hp, rfl⟩ := List.mem_map.mp hy
    exact hmin rfl p hp

/-- A concrete sensitivity profile for tomato. -/
def profileTomato : SensitivityProfile :=
  { plantType := "tomato", maxTemperature := 35, minTemperature := 5,
    maxPrecipitation := 20, maxWindSpeed := 50 }

/-- The alert produced by the concrete HIGH_TEMPERATURE scenario. -/
def alertDemoHigh : Alert :=
  { alertId := "alert-demo", gardenId := "g1", userId := 1, gardenName := "G1",
    timestamp := 0, alertType := AlertType.HIGH_TEMPERATURE,
    metric := "temperature", currentValue := 36, threshold := 35,
    affectedPlantTypes := ["tomato"], affectedPlantNames := [] }

/-- Witness for C3: the concrete HIGH_TEMPERATURE alert at 36 degrees over
a single tomato profile carries the minimal breached maxTemperature. -/
theorem c3_most_restrictive_witness :
    isMinOf alertDemoHigh.threshold
      ((([profileTomato]).filter
        (fun p => decide (p.maxTemperature < weatherW1.temperature))).map
        (fun p => p.maxTemperature)) :=
  ((c3_most_restrictive emptyCache 0 genIdDemo weatherW1 [profileTomato] gardenG1
    alertDemoHigh (by decide)).1 rfl).2

/-- Witness for C2: temperature 36 against the tomato limit 35 emits a
HIGH_TEMPERATURE alert. -/
theorem c2_strict_thresholds_witness :
    AlertType.HIGH_TEMPERATURE ∈
      (checkThresholds emptyCache 0 genIdDemo weatherW1
        [profileTomato] gardenG1).map Alert.alertType :=
  ((c2_strict_thresholds emptyCache 0 genIdDemo weatherW1
    [profileTomato] gardenG1).1).mpr ⟨profileTomato, by decide, by decide⟩

/-- Unfolding of the three-attempt retry chain. -/
lemma fetchWithRetry_three {T : Type} (r : ℕ → HttpResult T) :
    fetchWithRetry r 3 =
      match attemptOutcome (r 0) with
      | .ok d => { result := .ok d, attempts := 1, delays := [] }
      | .error _ =>
        match attemptOutcome (r 1) with
        | .ok d => { result := .ok d, attempts := 2, delays := [1000] }
        | .error _ =>
          match attemptOutcome (r 2) with
          | .ok d => { result := .ok d, attempts := 3, delays := [1000, 2000] }
          | .error e => { result := .error e, attempts := 3, delays := [1000, 2000] } := by
  cases h0 : attemptOutcome (r 0) <;> cases h1 : attemptOutcome (r 1) <;>
    cases h2 : attemptOutcome (r 2) <;>
    simp [fetchWithRetry, fetchRetryLoop, h0, h1, h2]

lemma attemptOutcome_of_httpOk_false {T : Type} {x : HttpResult T}
    (h : httpOk x = false) : ∃ e, attemptOutcome x = .error e := by
  cases x <;> simp_all [httpOk, attemptOutcome]

/-- C5: the retry helper performs at most 3 HTTP attempts; the waits
between attempts follow the exponential backoff schedule 1s, 2s, 4s (with
3 attempts only the 1s and 2s waits can occur); any failed attempt,
transport error or non-2xx alike, is followed by another attempt while
attempts remain; when every attempt fails the helper raises the last
error after 3 attempts and waits of 1s and 2s. -/
theorem c5_retry_policy {T : Type} (r : ℕ → HttpResult T) :
    (fetchWithRetry r 3).attempts ≤ 3 ∧
    (fetchWithRetry r 3).delays <+: [1000, 2000, 4000] ∧
    (httpOk (r 0) = false → 2 ≤ (fetchWithRetry r 3).attempts) ∧
    (httpOk (r 0) = false → httpOk (r 1) = false → 3 ≤ (fetchWithRetry r 3).attempts) ∧
    ((∀ k, k < 3 → httpOk (r k) = false) →
      (∃ e, (fetchWithRetry r 3).result = .error e) ∧
      (fetchWithRetry r 3).attempts = 3 ∧
      (fetchWithRetry r 3).delays = [1000, 2000]) ∧
    (∀ d, r 0 = .ok d →
      (fetchWithRetry r 3).result = .ok d ∧ (fetchWithRetry r 3).attempts = 1) := by
  have hthree := fetchWithRetry_three r
  refine ⟨?_, ?_, ?_, ?_, ?_, ?_⟩
  · rw [hthree]
    split
    · simp
    · split
      · simp
      · split <;> simp
  · rw [hthree]
    split
    · exact ⟨[1000, 2000, 4000], rfl⟩
    · split
      · exact ⟨[2000, 4000], rfl⟩
      · split <;> exact ⟨[4000], rfl⟩
  · intro hf
    obtain ⟨e0, he0⟩ := attemptOutcome_of_httpOk_false hf
    rw [hthree, he0]
    split <;> (try split) <;> (try split) <;> simp_all
  · intro hf0 hf1
    obtain ⟨e0, he0⟩ := attemptOutcome_of_httpOk_false hf0
    obtain ⟨e1, he1⟩ := attemptOutcome_of_httpOk_false hf1
    rw [hthree, he0, he1]
    split <;> (try split) <;> (try split) <;> simp_all
  · intro hall
    obtain ⟨e0, he0⟩ := attemptOutcome_of_httpOk_false (hall 0 (by omega))
    obtain ⟨e1, he1⟩ := attemptOutcome_of_httpOk_false (hall 1 (by omega))
    obtain ⟨e2, he2⟩ := attemptOutcome_of_httpOk_false (hall 2 (by omega))
    rw [hthree, he0, he1, he2]
    exact ⟨⟨e2, rfl⟩, rfl, rfl⟩
  · intro d h0
    rw [hthree, h0]
    exact ⟨rfl, rfl⟩

/-- All-failing responses for the retry witness. -/
def failAllResponses : ℕ → HttpResult (List Plant) :=
  fun k => if k = 0 then .transportError ("down") else .httpError 500 ("Internal")

/-- Witness for C5: with a transport error then two HTTP 500s, the helper
makes exactly 3 attempts, waits 1s then 2s, and raises. -/
theorem c5_retry_policy_witness :
    (∃ e, (fetchWithRetry failAllResponses 3).result = Except.error e) ∧
    (fetchWithRetry failAllResponses 3).attempts = 3 ∧
    (fetchWithRetry failAllResponses 3).delays = [1000, 2000] :=
  (c5_retry_policy failAllResponses).2.2.2.2.1 (by decide)

/-- Unfolding of the three-attempt SMS submit chain. -/
lemma sendLoop_three (s : ℕ → Bool) :
    sendLoop s 0 3 =
      if s 0 then { result := true, attemptsMade := 1, delays := [] }
      else if s 1 then { result := true, attemptsMade := 2, delays := [5000] }
      else if s 2 then { result := true, attemptsMade := 3, delays := [5000, 5000] }
      else { result := false, attemptsMade := 3, delays := [5000, 5000] } := by
  by_cases h0 : s 0 <;> by_cases h1 : s 1 <;> by_cases h2 : s 2 <;>
    simp [sendLoop, h0, h1, h2]

/-- C6: sendAlert returns false with zero gateway submits when the channel
is disabled or the user phone number is null or empty; otherwise it makes
at most 3 submit attempts separated by fixed 5s delays, succeeds exactly
when one of the first three submits succeeds, returns true right at the
first successful submit, and returns false after three failed attempts. -/
theorem c6_sms_send (enabled : Bool) (user : User) (submitOk : ℕ → Bool) :
    ((enabled = false ∨ user.phone_number = none ∨ user.phone_number = some ("")) →
      sendAlert enabled user submitOk =
        { result := false, attemptsMade := 0, delays := [] }) ∧
    (sendAlert enabled user submitOk).attemptsMade ≤ 3 ∧
    (∀ d ∈ (sendAlert enabled user submitOk).delays, d = 5000) ∧
    (enabled = true → jsTruthyString user.phone_number = true →
      (((sendAlert enabled user submitOk).result = true) ↔
        (submitOk 0 || submitOk 1 || submitOk 2) = true) ∧
      ((∀ k, k < 3 → submitOk k = false) →
        sendAlert enabled user submitOk =
          { result := false, attemptsMade := 3, delays := [5000, 5000] }) ∧
      (∀ k, k < 3 → submitOk k = true → (∀ j, j < k → submitOk j = false) →
        (sendAlert enabled user submitOk).result = true ∧
        (sendAlert enabled user submitOk).attemptsMade = k + 1)) := by
  cases enabled with
  | false => exact ⟨fun _ => rfl, by simp [sendAlert], by simp [sendAlert], by simp⟩
  | true =>
    by_cases hph : jsTruthyString user.phone_number
    · have hsend : sendAlert true user submitOk = sendLoop submitOk 0 3 := by
        simp [sendAlert, hph]
      refine ⟨?_, ?_, ?_, ?_⟩
      · rintro (h | h | h)
        · cases h
        · rw [h] at hph
          exact absurd hph (by decide)
        · rw [h] at hph
          exact absurd hph (by decide)
      · rw [hsend, sendLoop_three]
        by_cases h0 : submitOk 0 <;> by_cases h1 : submitOk 1 <;>
          by_cases h2 : submitOk 2 <;> simp [h0, h1, h2]
      · rw [hsend, sendLoop_three]
        by_cases h0 : submitOk 0 <;> by_cases h1 : submitOk 1 <;>
          by_cases h2 : submitOk 2 <;> simp [h0, h1, h2]
      · intro _ _
        refine ⟨?_, ?_, ?_⟩
        · rw [hsend, sendLoop_three]
          by_cases h0 : submitOk 0 <;> by_cases h1 : submitOk 1 <;>
            by_cases h2 : submitOk 2 <;> simp [h0, h1, h2]
        · intro hall
          have h0 := hall 0 (by omega)
          have h1 := hall 1 (by omega)
          have h2 := hall 2 (by omega)
          rw [hsend, sendLoop_three]
          simp [h0, h1, h2]
        · intro k hk hks hprev
          rw [hsend, sendLoop_three]
          interval_cases k
          · simp [hks]
          · have h0 := hprev 0 (by omega)
            simp [h0, hks]
          · have h0 := hprev 0 (by omega)
            have h1 := hprev 1 (by omega)
            simp [h0, h1, hks]
    · have hsend : sendAlert true user submitOk =
          { result := false, attemptsMade := 0, delays := [] } := by
        simp [sendAlert, hph]
      refine ⟨fun _ => hsend, by simp [hsend], by simp [hsend], ?_⟩
      intro _ htr
      rw [htr] at hph
      cases hph rfl

/-- Witness for C6: a disabled channel skips without attempts, and an
enabled channel with an always-failing gateway stops after 3 attempts and
two 5s waits. -/
theorem c6_sms_send_witness :
    sendAlert false userU1 (fun _ => true) =
      { result := false, attemptsMade := 0, delays := [] } ∧
    sendAlert true userU1 (fun _ => false) =
      { result := false, attemptsMade := 3, delays := [5000, 5000] } :=
  ⟨(c6_sms_send false userU1 (fun _ => true)).1 (Or.inl rfl),
   ((((c6_sms_send true userU1 (fun _ => false)).2.2.2) rfl (by decide)).2.1 (by decide))⟩

lemma recordAlert_windows (s : MetricsState) (t : String) :
    (recordAlert s t).openMeteoLatencies = s.openMeteoLatencies ∧
    (recordAlert s t).backendLatencies = s.backendLatencies := by
  unfold recordAlert
  split_ifs <;> exact ⟨rfl, rfl⟩

lemma isSuffix_append_right {α : Type} {a b : List α} (c : List α)
    (h : a <:+ b) : a ++ c <:+ b ++ c := by
  obtain ⟨t, rfl⟩ := h
  exact ⟨t, by simp⟩

lemma recordOpenMeteoLatency_length_le (s : MetricsState) (q : ℚ)
    (h : s.openMeteoLatencies.length ≤ 100) :
    (recordOpenMeteoLatency s q).openMeteoLatencies.length ≤ 100 := by
  simp only [recordOpenMeteoLatency]
  split
  all_goals simp_all [List.length_tail, List.length_append]

lemma recordBackendLatency_length_le (s : MetricsState) (q : ℚ)
    (h : s.backendLatencies.length ≤ 100) :
    (recordBackendLatency s q).backendLatencies.length ≤ 100 := by
  simp only [recordBackendLatency]
  split
  all_goals simp_all [List.length_tail, List.length_append]

lemma windows_invariant (events : List MetricsEvent) :
    ∀ s0 : MetricsState,
      ((events.foldl applyMetricsEvent s0).openMeteoLatencies <:+
        s0.openMeteoLatencies ++ omSamples events) ∧
      ((events.foldl applyMetricsEvent s0).backendLatencies <:+
        s0.backendLatencies ++ beSamples events) ∧
      (s0.openMeteoLatencies.length ≤ 100 →
        (events.foldl applyMetricsEvent s0).openMeteoLatencies.length ≤ 100) ∧
      (s0.backendLatencies.length ≤ 100 →
        (events.foldl applyMetricsEvent s0).backendLatencies.length ≤ 100) := by
  induction events with
  | nil =>
    intro s0
    refine ⟨?_, ?_, fun h => h, fun h => h⟩
    · rw [show omSamples [] = [] from rfl, List.append_nil]
      exact List.suffix_refl _
    · rw [show beSamples [] = [] from rfl, List.append_nil]
      exact List.suffix_refl _
  | cons e es ih =>
    intro s0
    obtain ⟨hom, hbe, hlom, hlbe⟩ := ih (applyMetricsEvent s0 e)
    have hfold : (e :: es).foldl applyMetricsEvent s0 =
        es.foldl applyMetricsEvent (applyMetricsEvent s0 e) := rfl
    cases e with
    | alertRecorded t =>
      obtain ⟨ho, hb⟩ := recordAlert_windows s0 t
      rw [hfold]
      refine ⟨?_, ?_, ?_, ?_⟩
      · simpa [applyMetricsEvent, ho, omSamples] using hom
      · simpa [applyMetricsEvent, hb, beSamples] using hbe
      · intro h; exact hlom (by simpa [applyMetricsEvent, ho] using h)
      · intro h; exact hlbe (by simpa [applyMetricsEvent, hb] using h)
    | smsSuccess =>
      rw [hfold]
      refine ⟨?_, ?_, ?_, ?_⟩
      · simpa [applyMetricsEvent, recordSMSSuccess, omSamples] using hom
      · simpa [applyMetricsEvent, recordSMSSuccess, beSamples] using hbe
      · intro h; exact hlom (by simpa [applyMetricsEvent, recordSMSSuccess] using h)
      · intro h; exact hlbe (by simpa [applyMetricsEvent, recordSMSSuccess] using h)
    | smsFailure =>
      rw [hfold]
      refine ⟨?_, ?_, ?_, ?_⟩
      · simpa [applyMetricsEvent, recordSMSFailure, omSamples] using hom
      · simpa [applyMetricsEvent, recordSMSFailure, beSamples] using hbe
      · intro h; exact hlom (by simpa [applyMetricsEvent, recordSMSFailure] using h)
      · intro h; exact hlbe (by simpa [applyMetricsEvent, recordSMSFailure] using h)
    | openMeteoLatency q =>
      rw [hfold]
      have hwin : (applyMetricsEvent s0 (.openMeteoLatency q)).openMeteoLatencies <:+
          s0.openMeteoLatencies ++ [q] := by
        simp only [applyMetricsEvent, recordOpenMeteoLatency]
        split
        · exact List.tail_suffix _
        · exact List.suffix_refl _
      have hbwin : (applyMetricsEvent s0 (.openMeteoLatency q)).backendLatencies =
          s0.backendLatencies := rfl
      refine ⟨?_, ?_, ?_, ?_⟩
      · have h1 : (applyMetricsEvent s0 (.openMeteoLatency q)).openMeteoLatencies
            ++ omSamples es <:+ (s0.openMeteoLatencies ++ [q]) ++ omSamples es :=
          isSuffix_append_right _ hwin
        have h2 := hom.trans h1
        simpa [omSamples, List.append_assoc] using h2
      · simpa [beSamples, hbwin] using hbe
      · intro h
        exact hlom (recordOpenMeteoLatency_length_le s0 q h)
      · intro h
        exact hlbe (by simpa [hbwin] using h)
    | backendLatency q =>
      rw [hfold]
      have hwin : (applyMetricsEvent s0 (.backendLatency q)).backendLatencies <:+
          s0.backendLatencies ++ [q] := by
        simp only [applyMetricsEvent, recordBackendLatency]
        split
        · exact List.tail_suffix _
        · exact List.suffix_refl _
      have howin : (applyMetricsEvent s0 (.backendLatency q)).openMeteoLatencies =
          s0.openMeteoLatencies := rfl
      refine ⟨?_, ?_, ?_, ?_⟩
      · simpa [omSamples, howin] using hom
      · have h1 : (applyMetricsEvent s0 (.backendLatency q)).backendLatencies
            ++ beSamples es <:+ (s0.backendLatencies ++ [q]) ++ beSamples es :=
          isSuffix_append_right _ hwin
        have h2 := hbe.trans h1
        simpa [beSamples, List.append_assoc] using h2
      · intro h
        exact hlom (by simpa [howin] using h)
      · intro h
        exact hlbe (recordBackendLatency_length_le s0 q h)

lemma calculateLatencyStats_count (l : List ℚ) :
    (calculateLatencyStats l).count = l.length := by
  cases l <;> simp [calculateLatencyStats]

/-- C8: after any sequence of recording calls, getMetrics reports an SMS
successRate equal to sent / (sent + failed) rounded to two decimals when
at least one SMS outcome was recorded and 0 otherwise, and each API
latency window holds at most the last 100 recorded samples. -/
theorem c8_metrics_report (start : ℤ) (events : List MetricsEvent) (nowMs : ℤ) :
    (0 < (runMetrics start events).smsSent + (runMetrics start events).smsFailed →
      (getMetrics (runMetrics start events) nowMs).sms.successRate =
        (jsRound ((((runMetrics start events).smsSent : ℚ) /
          (((runMetrics start events).smsSent +
            (runMetrics start events).smsFailed : ℕ) : ℚ)) * 100) : ℚ) / 100) ∧
    ((runMetrics start events).smsSent + (runMetrics start events).smsFailed = 0 →
      (getMetrics (runMetrics start events) nowMs).sms.successRate = 0) ∧
    (getMetrics (runMetrics start events) nowMs).sms.sent =
      (runMetrics start events).smsSent ∧
    (getMetrics (runMetrics start events) nowMs).sms.failed =
      (runMetrics start events).smsFailed ∧
    (getMetrics (runMetrics start events) nowMs).apiLatency.openmeteo.count ≤ 100 ∧
    (getMetrics (runMetrics start events) nowMs).apiLatency.backend.count ≤ 100 ∧
    (runMetrics start events).openMeteoLatencies <:+ omSamples events ∧
    (runMetrics start events).backendLatencies <:+ beSamples events := by
  obtain ⟨hom, hbe, hlom, hlbe⟩ := windows_invariant events (initialMetrics start)
  have hom' : (runMetrics start events).openMeteoLatencies <:+ omSamples events := by
    simpa [runMetrics, initialMetrics] using hom
  have hbe' : (runMetrics start events).backendLatencies <:+ beSamples events := by
    simpa [runMetrics, initialMetrics] using hbe
  refine ⟨?_, ?_, rfl, rfl, ?_, ?_, hom', hbe'⟩
  · intro h
    have hpos : (0:ℕ) < (runMetrics start events).smsSent ∨
        0 < (runMetrics start events).smsFailed := by omega
    simp [getMetrics, hpos]
  · intro h
    have h1 : (runMetrics start events).smsSent = 0 := by omega
    have h2 : (runMetrics start events).smsFailed = 0 := by omega
    simp [getMetrics, h1, h2, jsRound]
    all_goals norm_num
  · rw [show (getMetrics (runMetrics start events) nowMs).apiLatency.openmeteo =
      calculateLatencyStats (runMetrics start events).openMeteoLatencies from rfl]
    rw [calculateLatencyStats_count]
    exact hlom (by simp [initialMetrics])
  · rw [show (getMetrics (runMetrics start events) nowMs).apiLatency.backend =
      calculateLatencyStats (runMetrics start events).backendLatencies from rfl]
    rw [calculateLatencyStats_count]
    exact hlbe (by simp [initialMetrics])

/-- Witness for C8: one success and two failures give rate 1/3 rounded. -/
theorem c8_metrics_report_witness :
    (getMetrics (runMetrics 0
      [MetricsEvent.smsSuccess, MetricsEvent.smsFailure, MetricsEvent.smsFailure]) 0).sms.successRate =
      (jsRound ((((runMetrics 0
        [MetricsEvent.smsSuccess, MetricsEvent.smsFailure, MetricsEvent.smsFailure]).smsSent : ℚ) /
        (((runMetrics 0
          [MetricsEvent.smsSuccess, MetricsEvent.smsFailure, MetricsEvent.smsFailure]).smsSent +
          (runMetrics 0
          [MetricsEvent.smsSuccess, MetricsEvent.smsFailure, MetricsEvent.smsFailure]).smsFailed : ℕ) : ℚ)) * 100) : ℚ) / 100 :=
  (c8_metrics_report 0
    [MetricsEvent.smsSuccess, MetricsEvent.smsFailure, MetricsEvent.smsFailure] 0).1
    (by decide)

end GardenAlerts
